import Mathlib

/-!
Verification of the upload pipeline of `src/upload/bundlr.rs`.

The two operations under study are `prepare` (fee estimation and funding
gate) and `upload_data` (extension validation, task construction and the
bounded-concurrency harvesting loop).  Pure data is embedded directly;
the effectful collaborators (filesystem, balance oracle, price oracle,
funds transfer, the Bundlr transaction itself) are parameters supplied as
functions returning `Except`, and the nondeterminism of the concurrent
loop (which in-flight task completes first, when the user interrupt flag
is observed) is captured by explicit schedule functions.
-/

namespace Sugar

/-- The number of retries to fetch the Bundlr balance (`MAX_RETRY` in the source). -/
def MAX_RETRY : Nat := 120

/-- Time in milliseconds to wait until the next retry (`DELAY_UNTIL_RETRY`). -/
def DELAY_UNTIL_RETRY : Nat := 1000

/-- Size of a Bundlr transaction header (`HEADER_SIZE`). -/
def HEADER_SIZE : Nat := 2000

/-- Minimum file size for cost calculation (`MINIMUM_SIZE`). -/
def MINIMUM_SIZE : Nat := 10000

/-- Size of the mock image URI for cost calculation (`MOCK_URI_SIZE`). -/
def MOCK_URI_SIZE : Nat := 100

/-- The safety multiplier applied to the oracle fee.  In the source it is the
Rust expression `1.1 as u64`; a float-to-integer cast in Rust truncates toward
zero, so the multiplier's value is 1. -/
def SAFETY_MULTIPLIER : Nat := 1

/-- Modelled from the spec: which of image/metadata/animation a given upload
task concerns (`DataType` lives in the upload module, outside `src/`). -/
inductive DataType where
  | image
  | metadata
  | animation
deriving DecidableEq, Repr, Inhabited

/-- Modelled from the spec: a file path, observed by the code only through its
base name (`file_stem`) and its extension. -/
structure FPath where
  stem : String
  ext : String
deriving DecidableEq, Repr, Inhabited

/-- Modelled from the spec: one logical NFT asset, i.e. paths to an image
file, a metadata document and an optional animation file (`AssetPair` lives
outside `src/`; only these three fields are read by `bundlr.rs`). -/
structure AssetPair where
  image : FPath
  metadata : FPath
  animation : Option FPath
deriving DecidableEq, Repr, Inhabited

/-- Modelled from the spec: the per-asset record of upload links held by the
cache (`CacheItem` lives outside `src/`; these are the fields `bundlr.rs`
reads and writes). -/
structure CacheItem where
  image_link : String
  metadata_link : String
  animation_link : Option String
deriving DecidableEq, Repr, Inhabited

/-- A Bundlr tag (name/value pair). -/
structure Tag where
  name : String
  value : String
deriving DecidableEq, Repr, Inhabited

/-- The `TxInfo` record built for every file before dispatch. -/
structure TxInfo where
  asset_id : String
  file_path : FPath
  image_link : String
  animation_link : Option String
  data_type : DataType
  tag : List Tag
deriving DecidableEq, Repr, Inhabited

/-- The variants of `UploadError` used by `bundlr.rs`. -/
inductive UploadError where
  | SendDataFailed (msg : String)
  | NoBundlrBalance (address : String)
deriving DecidableEq, Repr, Inhabited

/-- The top-level (anyhow-style) errors `prepare` and `upload_data` can return,
together with a constructor for panics (`unwrap`/`expect` on missing data). -/
inductive AnyErr where
  | assetNotFound (i : Nat)
  | invalidExtension (exts : List String)
  | cacheItemNotFound (assetId : String)
  | panicked (msg : String)
  | upload (e : UploadError)
  | external (msg : String)
deriving DecidableEq, Repr, Inhabited

/-- Outcome of one spawned `send_bundlr_tx` task, as seen by `select_all`:
the task may resolve to `Ok((asset_id, id))`, to a transport `Err`, or the
join itself may fail (panic-equivalent). -/
inductive TaskOutcome where
  | success (id : String)
  | sendFailure (msg : String)
  | joinFailure (msg : String)
deriving DecidableEq, Repr, Inhabited

/-- First-match lookup in an association list (the observable behaviour of the
asset map and of the cache's ordered map). -/
def lookupKey {α : Type} [DecidableEq α] {β : Type} :
    List (α × β) → α → Option β
  | [], _ => none
  | (k, v) :: rest, k' => if k' = k then some v else lookupKey rest k'

/-- Update the first binding of key `k` by `f`, leaving every other binding
unchanged (the observable behaviour of `get_mut` on the cache map). -/
def setItem {β : Type} (k : String) (f : β → β) :
    List (String × β) → List (String × β)
  | [] => []
  | (k', v) :: rest =>
    if k' = k then (k', f v) :: rest else (k', v) :: setItem k f rest

/-- Write `link` into the `CacheItem` field selected by the data kind
(the `match data_type` at the cache-update site of `upload_data`). -/
def updateLink (dt : DataType) (link : String) (item : CacheItem) : CacheItem :=
  match dt with
  | .image => { item with image_link := link }
  | .metadata => { item with metadata_link := link }
  | .animation => { item with animation_link := some link }

/-- File path chosen for an asset according to the data type.  For
`DataType::Animation` the source calls `.unwrap()` on the optional animation
path, so `none` here corresponds to a panic. -/
def pathFor (dt : DataType) (a : AssetPair) : Option FPath :=
  match dt with
  | .image => some a.image
  | .metadata => some a.metadata
  | .animation => a.animation

/-- Insert an extension into the extension set (`HashSet::insert`): a set is
modelled as a duplicate-free list. -/
def insertExt (e : String) (s : List String) : List String :=
  if e ∈ s then s else s ++ [e]

/-- The first loop of `upload_data`: walk the indices in order, look each
asset up (a missing asset is an error), choose the file path for the data
type, record its extension in the extension set and push the path. -/
def collectLoop (assets : List (Nat × AssetPair)) (dt : DataType) :
    List String → List FPath → List Nat → Except AnyErr (List String × List FPath)
  | exts, paths, [] => .ok (exts, paths)
  | exts, paths, i :: rest =>
    match lookupKey assets i with
    | none => .error (.assetNotFound i)
    | some item =>
      match pathFor dt item with
      | none => .error (.panicked "called unwrap on a None value")
      | some fp => collectLoop assets dt (insertExt fp.ext exts) (paths ++ [fp]) rest

/-- Extension set and path list built by `upload_data` from the selection. -/
def collectPaths (assets : List (Nat × AssetPair)) (dt : DataType)
    (indices : List Nat) : Except AnyErr (List String × List FPath) :=
  collectLoop assets dt [] [] indices

/-- The two tags attached to every transaction: the `App-Name` tag and the
`Content-Type` tag derived from the data type and the common extension. -/
def mkTags (version : String) (dt : DataType) (extension : String) : List Tag :=
  let sugarTag : Tag := ⟨"App-Name", "Sugar " ++ version⟩
  let contentTag : Tag :=
    match dt with
    | .image => ⟨"Content-Type", "image/" ++ extension⟩
    | .metadata => ⟨"Content-Type", "application/json"⟩
    | .animation => ⟨"Content-Type", "video/" ++ extension⟩
  [sugarTag, contentTag]

/-- The second loop of `upload_data`: build one `TxInfo` per path, reading the
current links from the cache item keyed by the file stem (a missing cache item
is an error). -/
def buildTxs (cache0 : List (String × CacheItem)) (dt : DataType)
    (tags : List Tag) :
    List TxInfo → List FPath → Except AnyErr (List TxInfo)
  | acc, [] => .ok acc
  | acc, fp :: rest =>
    match lookupKey cache0 fp.stem with
    | none => .error (.cacheItemNotFound fp.stem)
    | some item =>
      buildTxs cache0 dt tags
        (acc ++ [⟨fp.stem, fp, item.image_link, item.animation_link, dt, tags⟩]) rest

/-- State of the harvesting loop: the in-memory cache map, the last snapshot
flushed to disk, the number of `sync_file` calls, the queue of not yet
dispatched transactions, the in-flight handles, the collected task errors and
the number of tasks dispatched so far. -/
structure SchedState where
  cache : List (String × CacheItem)
  disk : List (String × CacheItem)
  syncs : Nat
  pending : List TxInfo
  handles : List TxInfo
  errors : List UploadError
  dispatched : Nat
deriving DecidableEq, Repr, Inhabited

/-- Apply the outcome of the harvested task: on success form the link from the
gateway prefix and the returned id and write it into the cache item keyed by
the task's asset id; on a transport error or a join error append one
`UploadError` and leave the cache alone. -/
def applyOutcome (env : TxInfo → TaskOutcome) (dt : DataType) (tx : TxInfo)
    (st : SchedState) : SchedState :=
  match env tx with
  | .success id =>
    let link := "https://arweave.net/" ++ id
    { st with cache := setItem tx.asset_id (updateLink dt link) st.cache }
  | .sendFailure msg =>
    { st with errors := st.errors ++ [.SendDataFailed ("Bundlr upload error: " ++ msg)] }
  | .joinFailure msg =>
    { st with errors := st.errors ++ [.SendDataFailed ("Bundlr upload error: " ++ msg)] }

/-- The refill step at the bottom of the harvesting loop: if transactions are
pending and the in-flight set has shrunk enough (`PARALLEL_LIMIT - handles.len()
> PARALLEL_LIMIT / 2` in the source), sync the cache to disk (checkpoint) and
dispatch up to `PARALLEL_LIMIT / 2` more transactions from the front of the
queue. -/
def refill (P : Nat) (st : SchedState) : SchedState :=
  if st.pending.isEmpty then st
  else if P - st.handles.length > P / 2 then
    let k := min st.pending.length (P / 2)
    { st with
      syncs := st.syncs + 1
      disk := st.cache
      handles := st.handles ++ st.pending.take k
      pending := st.pending.drop k
      dispatched := st.dispatched + k }
  else st

/-- One iteration of the harvesting loop body: `select_all` resolves the
in-flight handle selected by the schedule, the outcome is applied, and the
refill step runs. -/
def stepOnce (env : TxInfo → TaskOutcome) (pick : Nat → Nat) (P : Nat)
    (dt : DataType) (n : Nat) (st : SchedState) : SchedState :=
  if st.handles.isEmpty then st
  else
    let i := pick n % st.handles.length
    let tx := st.handles.getD i default
    let st1 := { st with handles := st.handles.eraseIdx i }
    refill P (applyOutcome env dt tx st1)

/-- The harvesting loop: while the interrupt flag is unset and handles remain,
run one iteration.  `fuel` is an upper bound on the number of iterations;
`upload_data` passes the total number of transactions, which always
suffices because every iteration consumes exactly one unit of
`handles.length + pending.length`. -/
def harvest (env : TxInfo → TaskOutcome) (pick : Nat → Nat) (intr : Nat → Bool)
    (P : Nat) (dt : DataType) : Nat → Nat → SchedState → SchedState
  | 0, _, st => st
  | fuel + 1, n, st =>
    if intr n || st.handles.isEmpty then st
    else harvest env pick intr P dt fuel (n + 1) (stepOnce env pick P dt n st)

deriving instance DecidableEq for Except

/-- Result of a whole `upload_data` run: the returned value, the final
in-memory cache, the final on-disk snapshot, how many times `sync_file` ran,
what remained undispatched and in flight, the error list, the total number of
dispatched tasks, and whether the final `sync_file` after the loop ran. -/
structure UploadRun where
  result : Except AnyErr (List UploadError)
  cache : List (String × CacheItem)
  disk : List (String × CacheItem)
  syncs : Nat
  pendingLeft : List TxInfo
  inFlightLeft : List TxInfo
  errors : List UploadError
  dispatched : Nat
  syncedAfterLoop : Bool
deriving DecidableEq, Repr, Inhabited

/-- An `UploadRun` for an exit taken before the loop is reached: nothing was
dispatched, nothing was synced, the cache is untouched. -/
def earlyExit (cache0 : List (String × CacheItem)) (e : AnyErr) : UploadRun :=
  { result := .error e, cache := cache0, disk := cache0, syncs := 0,
    pendingLeft := [], inFlightLeft := [], errors := [], dispatched := 0,
    syncedAfterLoop := false }

/-- The initial scheduler state: `drain(0..min(len, PARALLEL_LIMIT))` moves the
front of the transaction queue into the in-flight set. -/
def initState (cache0 : List (String × CacheItem)) (txs : List TxInfo)
    (P : Nat) : SchedState :=
  { cache := cache0, disk := cache0, syncs := 0,
    handles := txs.take (min txs.length P),
    pending := txs.drop (min txs.length P),
    errors := [], dispatched := min txs.length P }

/-- The exit sequence after the harvesting loop.  Mirrors the source exactly:
if the error list is non-empty the run falls through to the final sync and
returns `Ok(errors)`; otherwise, if undispatched transactions remain, the
aborted error is returned immediately, skipping the final sync; otherwise the
final sync runs and `Ok([])` is returned. -/
def finish (st : SchedState) : UploadRun :=
  if st.errors.isEmpty then
    if st.pending.isEmpty then
      { result := .ok st.errors, cache := st.cache, disk := st.cache,
        syncs := st.syncs + 1, pendingLeft := st.pending,
        inFlightLeft := st.handles, errors := st.errors,
        dispatched := st.dispatched, syncedAfterLoop := true }
    else
      { result := .error (.upload (.SendDataFailed "Not all files were uploaded.")),
        cache := st.cache, disk := st.disk, syncs := st.syncs,
        pendingLeft := st.pending, inFlightLeft := st.handles,
        errors := st.errors, dispatched := st.dispatched,
        syncedAfterLoop := false }
  else
    { result := .ok st.errors, cache := st.cache, disk := st.cache,
      syncs := st.syncs + 1, pendingLeft := st.pending,
      inFlightLeft := st.handles, errors := st.errors,
      dispatched := st.dispatched, syncedAfterLoop := true }

/-- The whole of `upload_data`: validate that all selected files share one
extension, build the transactions from the cache, dispatch the initial batch,
run the harvesting loop and take the exit sequence. -/
def upload_data (env : TxInfo → TaskOutcome) (pick : Nat → Nat)
    (intr : Nat → Bool) (P : Nat) (version : String)
    (assets : List (Nat × AssetPair)) (cache0 : List (String × CacheItem))
    (indices : List Nat) (dt : DataType) : UploadRun :=
  match collectPaths assets dt indices with
  | .error e => earlyExit cache0 e
  | .ok (exts, paths) =>
    if exts.length = 1 then
      let extension := exts.headD ""
      match buildTxs cache0 dt (mkTags version dt extension) [] paths with
      | .error e => earlyExit cache0 e
      | .ok txs =>
        finish (harvest env pick intr P dt txs.length 0 (initState cache0 txs P))
    else earlyExit cache0 (.invalidExtension exts)

/-! The `prepare` side: fee estimation and the funding gate. -/

/-- The effectful collaborators of `prepare`, supplied as parameters:
`fsize` is `std::fs::metadata(path)?.len()`; `getUpdatedMetadata` is modelled
from the spec (the helper rewrites the metadata document in memory,
substituting the given image and animation URIs for the links, without
touching the file; it lives outside `src/`); `price` is the Bundlr price
endpoint; `balance` the initial balance query; `setup` the RPC client setup;
`fund` the value transfer of the given amount; `poll` the balance query made
on the given retry attempt of the verification loop. -/
structure PrepEnv where
  fsize : FPath → Except AnyErr Nat
  getUpdatedMetadata : FPath → String → Option String → Except AnyErr String
  price : Nat → Except AnyErr Nat
  balance : Except AnyErr Nat
  setup : Except AnyErr Unit
  fund : Nat → Except AnyErr Unit
  poll : Nat → Except AnyErr Nat

/-- The mock URI used during cost estimation: `"x".repeat(MOCK_URI_SIZE)`. -/
def mockUri : String := String.mk (List.replicate MOCK_URI_SIZE 'x')

/-- The accumulation pattern shared by the three sizing loops of `prepare`:
`total_size += cost(index)` for each index, propagating the first error. -/
def sumCosts (cost : Nat → Except AnyErr Nat) :
    Nat → List Nat → Except AnyErr Nat
  | acc, [] => .ok acc
  | acc, i :: rest =>
    match cost i with
    | .error e => .error e
    | .ok c => sumCosts cost (acc + c) rest

/-- The size contribution of one image: `HEADER_SIZE + max(MINIMUM_SIZE,
file_size)`.  The asset lookup is `.unwrap()` in the source, hence a panic
when the index is missing. -/
def imageCost (env : PrepEnv) (assets : List (Nat × AssetPair)) (i : Nat) :
    Except AnyErr Nat :=
  match lookupKey assets i with
  | none => .error (.panicked "called unwrap on a None value")
  | some item =>
    match env.fsize item.image with
    | .error e => .error e
    | .ok len => .ok (HEADER_SIZE + max MINIMUM_SIZE len)

/-- The size contribution of one animation file; the optional animation path
is `.unwrap()`ed in the source. -/
def animationCost (env : PrepEnv) (assets : List (Nat × AssetPair)) (i : Nat) :
    Except AnyErr Nat :=
  match lookupKey assets i with
  | none => .error (.panicked "called unwrap on a None value")
  | some item =>
    match item.animation with
    | none => .error (.panicked "called unwrap on a None value")
    | some fp =>
      match env.fsize fp with
      | .error e => .error e
      | .ok len => .ok (HEADER_SIZE + max MINIMUM_SIZE len)

/-- The size contribution of one metadata document: the document is rewritten
in memory with the mock URI substituted for the image link (and for the
animation link when the asset has an animation), and its byte length feeds
the `max` with `MINIMUM_SIZE`. -/
def metadataCost (env : PrepEnv) (assets : List (Nat × AssetPair)) (i : Nat) :
    Except AnyErr Nat :=
  match lookupKey assets i with
  | none => .error (.panicked "called unwrap on a None value")
  | some item =>
    let mockAnim : Option String :=
      if item.animation.isSome then some mockUri else none
    match env.getUpdatedMetadata item.metadata mockUri mockAnim with
    | .error e => .error e
    | .ok doc => .ok (HEADER_SIZE + max MINIMUM_SIZE doc.utf8ByteSize)

/-- The `total_size` computed by `prepare`: images first, then (inside an
is-empty guard) animations, then metadata. -/
def totalSize (env : PrepEnv) (assets : List (Nat × AssetPair))
    (imageIndices metadataIndices animationIndices : List Nat) :
    Except AnyErr Nat :=
  match sumCosts (imageCost env assets) 0 imageIndices with
  | .error e => .error e
  | .ok s1 =>
    match (if animationIndices.isEmpty then .ok s1
           else sumCosts (animationCost env assets) s1 animationIndices :
           Except AnyErr Nat) with
    | .error e => .error e
    | .ok s2 => sumCosts (metadataCost env assets) s2 metadataIndices

/-- The amount the funding gate compares against the balance: the oracle fee
times the safety multiplier (`get_bundlr_fee(...) * (1.1 as u64)`). -/
def requiredAmount (fee : Nat) : Nat := fee * SAFETY_MULTIPLIER

/-- One poll of the balance oracle: `if let Ok(value) = res { balance = value }`,
i.e. a successful query replaces the observed balance and a failed query
leaves it unchanged. -/
def observe1 (oracle : Nat → Except AnyErr Nat) (bal i : Nat) : Nat :=
  match oracle i with | .ok v => v | .error _ => bal

/-- The balance left after `k` polls starting at attempt `i` when the initial
observed balance is `bal`. -/
def observedFrom (oracle : Nat → Except AnyErr Nat) : Nat → Nat → Nat → Nat
  | bal, _, 0 => bal
  | bal, i, k + 1 => observedFrom oracle (observe1 oracle bal i) (i + 1) k

/-- The balance verification loop of `prepare`: up to `budget` attempts, each
attempt queries the oracle (a failure leaves the observed balance unchanged)
and stops as soon as the observed balance reaches the fee.  Returns the final
observed balance and the number of attempts made. -/
def pollLoop (oracle : Nat → Except AnyErr Nat) (fee : Nat) :
    Nat → Nat → Nat → Nat × Nat
  | bal, _, 0 => (bal, 0)
  | bal, i, budget + 1 =>
    let bal' := observe1 oracle bal i
    if fee ≤ bal' then (bal', 1)
    else
      let r := pollLoop oracle fee bal' (i + 1) budget
      (r.fst, r.snd + 1)

/-- Result of a `prepare` run: the returned value, the amounts of the funding
transfers issued (in order) and the number of balance polls made by the
verification loop. -/
structure PrepRun where
  result : Except AnyErr Unit
  transfers : List Nat
  polls : Nat
deriving DecidableEq, Repr

/-- The whole of `prepare`: compute `total_size`, query the price oracle,
apply the safety multiplier, query the balance; when the required amount
exceeds the balance, issue a single transfer of the difference and poll the
balance up to `MAX_RETRY` times, failing with `NoBundlrBalance` if the
observed balance still falls short of the requirement. -/
def prepare (env : PrepEnv) (address : String)
    (assets : List (Nat × AssetPair))
    (imageIndices metadataIndices animationIndices : List Nat) : PrepRun :=
  match totalSize env assets imageIndices metadataIndices animationIndices with
  | .error e => ⟨.error e, [], 0⟩
  | .ok ts =>
    match env.price ts with
    | .error e => ⟨.error e, [], 0⟩
    | .ok fee =>
      let lamportsFee := requiredAmount fee
      match env.balance with
      | .error e => ⟨.error e, [], 0⟩
      | .ok bal =>
        match env.setup with
        | .error e => ⟨.error e, [], 0⟩
        | .ok _ =>
          if bal < lamportsFee then
            match env.fund (lamportsFee - bal) with
            | .error e => ⟨.error e, [lamportsFee - bal], 0⟩
            | .ok _ =>
              let r := pollLoop env.poll lamportsFee bal 0 MAX_RETRY
              if r.fst < lamportsFee then
                ⟨.error (.upload (.NoBundlrBalance address)),
                 [lamportsFee - bal], r.snd⟩
              else ⟨.ok (), [lamportsFee - bal], r.snd⟩
          else ⟨.ok (), [], 0⟩

/-! Concrete instances used by witnesses and counterexamples. -/

/-- A transport environment in which every upload succeeds with a
deterministic id derived from the asset id. -/
def envOkIds : TxInfo → TaskOutcome := fun tx => .success ("id-" ++ tx.asset_id)

/-- A completion schedule that always harvests the oldest in-flight handle. -/
def pick0 : Nat → Nat := fun _ => 0

/-- An interrupt flag observed set from the second loop check on. -/
def intrAt1 : Nat → Bool := fun n => n != 0

/-- An interrupt flag already set at the first loop check. -/
def intrAlways : Nat → Bool := fun _ => true

/-- An interrupt flag that is never set. -/
def intrNever : Nat → Bool := fun _ => false

/-- A small asset whose files are `s.png` / `s.json`, with no animation. -/
def assetPng (s : String) : AssetPair := ⟨⟨s, "png"⟩, ⟨s, "json"⟩, none⟩

/-- An asset map with three png assets. -/
def assets3 : List (Nat × AssetPair) :=
  [(0, assetPng "a0"), (1, assetPng "a1"), (2, assetPng "a2")]

/-- A cache item with no recorded links. -/
def emptyItem : CacheItem := ⟨"", "", none⟩

/-- A cache for the three png assets, with no recorded links. -/
def cache3 : List (String × CacheItem) :=
  [("a0", emptyItem), ("a1", emptyItem), ("a2", emptyItem)]

/-- An asset map with two png assets. -/
def assets2 : List (Nat × AssetPair) := [(0, assetPng "a0"), (1, assetPng "a1")]

/-- A cache for the two png assets. -/
def cache2 : List (String × CacheItem) := [("a0", emptyItem), ("a1", emptyItem)]

/-- An asset map whose two images carry different extensions. -/
def assetsHet : List (Nat × AssetPair) :=
  [(0, assetPng "a0"), (1, ⟨⟨"a1", "jpg"⟩, ⟨"a1", "json"⟩, none⟩)]

/-- A concrete transaction for asset `a0`. -/
def txW : TxInfo := ⟨"a0", ⟨"a0", "png"⟩, "", none, .image, []⟩

/-- A concrete transaction for asset `a1`. -/
def txW1 : TxInfo := ⟨"a1", ⟨"a1", "png"⟩, "", none, .image, []⟩

/-- A mid-run scheduler state: one task in flight, one still pending. -/
def stW : SchedState := ⟨cache2, cache2, 0, [txW1], [txW], [], 1⟩

/-- The tags carried by the concrete png transactions. -/
def tagsPng : List Tag := mkTags "0.1.1" DataType.image "png"

/-- The transaction built for asset `a0` of `cache2`. -/
def txA0 : TxInfo := ⟨"a0", ⟨"a0", "png"⟩, "", none, .image, tagsPng⟩

/-- The transaction built for asset `a1` of `cache2`. -/
def txA1 : TxInfo := ⟨"a1", ⟨"a1", "png"⟩, "", none, .image, tagsPng⟩

/-- The asset used by the `prepare` witnesses. -/
def prepItemW : AssetPair := assetPng "a0"

/-- The asset map used by the `prepare` witnesses. -/
def prepAssetsW : List (Nat × AssetPair) := [(0, prepItemW)]

/-- A concrete `prepare` environment: every file is 20000 bytes, the rewritten
metadata document is the four-byte string `meta`, the price oracle quotes the
byte size itself, the balance starts at zero, funding succeeds, and every
verification poll fails. -/
def prepEnvW : PrepEnv :=
  { fsize := fun _ => .ok 20000
    getUpdatedMetadata := fun _ _ _ => .ok "meta"
    price := fun n => .ok n
    balance := .ok 0
    setup := .ok ()
    fund := fun _ => .ok ()
    poll := fun _ => .error (.external "oracle unreachable") }

/-! Supporting lemmas. -/

theorem lookupKey_setItem (k : String) (f : CacheItem → CacheItem)
    (m : List (String × CacheItem)) (k' : String) :
    lookupKey (setItem k f m) k' =
      if k' = k then (lookupKey m k').map f else lookupKey m k' := by
  induction m with
  | nil => by_cases h : k' = k <;> simp [setItem, lookupKey, h]
  | cons p rest ih =>
    obtain ⟨a, v⟩ := p
    by_cases hak : a = k
    · subst hak
      by_cases hk : k' = a <;> simp [setItem, lookupKey, hk]
    · by_cases hk : k' = a
      · subst hk
        simp [setItem, lookupKey, hak]
      · simp [setItem, lookupKey, hak, hk, ih]

theorem mem_insertExt (e x : String) (s : List String) :
    x ∈ insertExt e s ↔ x ∈ s ∨ x = e := by
  unfold insertExt
  by_cases h : e ∈ s
  · simp only [if_pos h]
    constructor
    · exact fun hx => Or.inl hx
    · rintro (hx | rfl)
      · exact hx
      · exact h
  · simp [if_neg h]

theorem collectLoop_ext_mem (assets : List (Nat × AssetPair)) (dt : DataType) :
    ∀ (l : List Nat) (exts0 : List String) (paths0 : List FPath)
      (exts : List String) (paths : List FPath),
      (∀ fp ∈ paths0, fp.ext ∈ exts0) →
      collectLoop assets dt exts0 paths0 l = .ok (exts, paths) →
      ∀ fp ∈ paths, fp.ext ∈ exts := by
  intro l
  induction l with
  | nil =>
    intro exts0 paths0 exts paths hinv heq
    simp only [collectLoop, Except.ok.injEq, Prod.mk.injEq] at heq
    obtain ⟨h1, h2⟩ := heq
    subst h1; subst h2
    exact hinv
  | cons i rest ih =>
    intro exts0 paths0 exts paths hinv heq
    rw [collectLoop] at heq
    split at heq
    · cases heq
    · split at heq
      · cases heq
      · refine ih _ _ _ _ ?_ heq
        intro q hq
        rcases List.mem_append.mp hq with hq0 | hq1
        · exact (mem_insertExt _ _ _).mpr (Or.inl (hinv q hq0))
        · have hqfp := List.mem_singleton.mp hq1
          subst hqfp
          exact (mem_insertExt _ _ _).mpr (Or.inr rfl)

theorem length_ne_one_of_two_mem {l : List String} {x y : String}
    (hx : x ∈ l) (hy : y ∈ l) (hxy : x ≠ y) : l.length ≠ 1 := by
  intro h1
  obtain ⟨a, rfl⟩ := List.length_eq_one.mp h1
  simp only [List.mem_singleton] at hx hy
  exact hxy (hx.trans hy.symm)

theorem refill_cache (P : Nat) (st : SchedState) :
    (refill P st).cache = st.cache := by
  unfold refill; split_ifs <;> rfl

theorem refill_errors (P : Nat) (st : SchedState) :
    (refill P st).errors = st.errors := by
  unfold refill; split_ifs <;> rfl

theorem applyOutcome_handles (env : TxInfo → TaskOutcome) (dt : DataType)
    (tx : TxInfo) (st : SchedState) :
    (applyOutcome env dt tx st).handles = st.handles := by
  unfold applyOutcome
  cases env tx <;> rfl

theorem applyOutcome_pending (env : TxInfo → TaskOutcome) (dt : DataType)
    (tx : TxInfo) (st : SchedState) :
    (applyOutcome env dt tx st).pending = st.pending := by
  unfold applyOutcome
  cases env tx <;> rfl

theorem refill_handles_le (P : Nat) (st : SchedState)
    (h : st.handles.length ≤ P) : (refill P st).handles.length ≤ P := by
  unfold refill
  split_ifs with h1 h2
  · exact h
  · simp only [List.length_append, List.length_take]
    omega
  · exact h

/-! Theorems for the claims. -/

theorem isEmpty_false_of_ne_nil {α : Type} {l : List α} (h : l ≠ []) :
    l.isEmpty = false := by
  cases l with
  | nil => exact absurd rfl h
  | cons a t => rfl

theorem stepOnce_eq (env : TxInfo → TaskOutcome) (pick : Nat → Nat) (P : Nat)
    (dt : DataType) (n : Nat) (st : SchedState) (hne : st.handles ≠ []) :
    stepOnce env pick P dt n st =
      refill P (applyOutcome env dt
        (st.handles.getD (pick n % st.handles.length) default)
        { st with handles := st.handles.eraseIdx (pick n % st.handles.length) }) := by
  simp [stepOnce, isEmpty_false_of_ne_nil hne]

theorem harvest_step (env : TxInfo → TaskOutcome) (pick : Nat → Nat)
    (intr : Nat → Bool) (P : Nat) (dt : DataType) (fuel n : Nat)
    (st : SchedState) (hintr : intr n = false) (hne : st.handles ≠ []) :
    harvest env pick intr P dt (fuel + 1) n st =
      harvest env pick intr P dt fuel (n + 1) (stepOnce env pick P dt n st) := by
  rw [harvest]
  simp [hintr, isEmpty_false_of_ne_nil hne]

theorem stepOnce_handles_le (env : TxInfo → TaskOutcome) (pick : Nat → Nat)
    (P : Nat) (dt : DataType) (n : Nat) (st : SchedState)
    (h : st.handles.length ≤ P) :
    (stepOnce env pick P dt n st).handles.length ≤ P := by
  by_cases hne : st.handles = []
  · simp [stepOnce, hne]
  · rw [stepOnce_eq env pick P dt n st hne]
    apply refill_handles_le
    rw [applyOutcome_handles]
    have hlt : pick n % st.handles.length < st.handles.length :=
      Nat.mod_lt _ (List.length_pos.mpr hne)
    have hh := List.length_eraseIdx_add_one hlt
    show (st.handles.eraseIdx (pick n % st.handles.length)).length ≤ P
    omega

theorem harvest_handles_le (env : TxInfo → TaskOutcome) (pick : Nat → Nat)
    (intr : Nat → Bool) (P : Nat) (dt : DataType) :
    ∀ (fuel n : Nat) (st : SchedState), st.handles.length ≤ P →
      (harvest env pick intr P dt fuel n st).handles.length ≤ P := by
  intro fuel
  induction fuel with
  | zero =>
    intro n st h
    exact h
  | succ f ih =>
    intro n st h
    rw [harvest]
    split
    · exact h
    · exact ih (n + 1) _ (stepOnce_handles_le env pick P dt n st h)

/-- C10: for the empty selection, `upload_data` returns the
invalid-extension error (the extension set built from zero files has length
0, failing the length-must-equal-1 check) before dispatching any task,
before any cache synchronization and without touching the cache. -/
theorem c10_empty_selection_rejected (env : TxInfo → TaskOutcome)
    (pick : Nat → Nat) (intr : Nat → Bool) (P : Nat) (version : String)
    (assets : List (Nat × AssetPair)) (cache0 : List (String × CacheItem))
    (dt : DataType) :
    (upload_data env pick intr P version assets cache0 [] dt).result =
        .error (.invalidExtension []) ∧
    (upload_data env pick intr P version assets cache0 [] dt).cache = cache0 ∧
    (upload_data env pick intr P version assets cache0 [] dt).disk = cache0 ∧
    (upload_data env pick intr P version assets cache0 [] dt).syncs = 0 ∧
    (upload_data env pick intr P version assets cache0 [] dt).dispatched = 0 :=
  ⟨rfl, rfl, rfl, rfl, rfl⟩

/-- C9: whenever the selected files carry at least two distinct extensions,
`upload_data` fails with the invalid-extension error before dispatching any
task, before any cache synchronization and without mutating the cache. -/
theorem c9_heterogeneous_batch_rejected (env : TxInfo → TaskOutcome)
    (pick : Nat → Nat) (intr : Nat → Bool) (P : Nat) (version : String)
    (assets : List (Nat × AssetPair)) (cache0 : List (String × CacheItem))
    (indices : List Nat) (dt : DataType) (exts : List String)
    (paths : List FPath)
    (hc : collectPaths assets dt indices = .ok (exts, paths))
    (hdiff : ∃ p ∈ paths, ∃ q ∈ paths, p.ext ≠ q.ext) :
    (upload_data env pick intr P version assets cache0 indices dt).result =
        .error (.invalidExtension exts) ∧
    (upload_data env pick intr P version assets cache0 indices dt).cache = cache0 ∧
    (upload_data env pick intr P version assets cache0 indices dt).disk = cache0 ∧
    (upload_data env pick intr P version assets cache0 indices dt).syncs = 0 ∧
    (upload_data env pick intr P version assets cache0 indices dt).dispatched = 0 := by
  have hmem := collectLoop_ext_mem assets dt indices [] [] exts paths
    (by intro fp h; cases h) hc
  obtain ⟨p, hp, q, hq, hpq⟩ := hdiff
  have hlen : exts.length ≠ 1 :=
    length_ne_one_of_two_mem (hmem p hp) (hmem q hq) fun h => hpq (by
      exact h)
  have hrun : upload_data env pick intr P version assets cache0 indices dt =
      earlyExit cache0 (.invalidExtension exts) := by
    unfold upload_data collectPaths at *
    rw [hc]
    simp [hlen]
  rw [hrun]
  exact ⟨rfl, rfl, rfl, rfl, rfl⟩

theorem pollLoop_spec (oracle : Nat → Except AnyErr Nat) (fee : Nat) :
    ∀ (budget bal i : Nat),
      (pollLoop oracle fee bal i budget).fst =
        observedFrom oracle bal i (pollLoop oracle fee bal i budget).snd ∧
      (pollLoop oracle fee bal i budget).snd ≤ budget ∧
      ((pollLoop oracle fee bal i budget).fst < fee →
        (pollLoop oracle fee bal i budget).snd = budget) ∧
      (∀ m, m + 1 < (pollLoop oracle fee bal i budget).snd →
        observedFrom oracle bal i (m + 1) < fee) := by
  intro budget
  induction budget with
  | zero =>
    intro bal i
    refine ⟨rfl, Nat.le_refl 0, fun _ => rfl, fun m hm => ?_⟩
    have h0 : (pollLoop oracle fee bal i 0).snd = 0 := rfl
    omega
  | succ b ih =>
    intro bal i
    by_cases hok : fee ≤ observe1 oracle bal i
    · have hred : pollLoop oracle fee bal i (b + 1) = (observe1 oracle bal i, 1) := by
        simp [pollLoop, hok]
      rw [hred]
      refine ⟨by simp [observedFrom], by omega, ?_, ?_⟩
      · intro hlt
        exact absurd hlt (Nat.not_lt.mpr hok)
      · intro m hm
        exact absurd hm (by omega)
    · have hred : pollLoop oracle fee bal i (b + 1) =
          ((pollLoop oracle fee (observe1 oracle bal i) (i + 1) b).fst,
           (pollLoop oracle fee (observe1 oracle bal i) (i + 1) b).snd + 1) := by
        simp [pollLoop, hok]
      obtain ⟨ih1, ih2, ih3, ih4⟩ := ih (observe1 oracle bal i) (i + 1)
      rw [hred]
      refine ⟨by simpa [observedFrom] using ih1, by omega, ?_, ?_⟩
      · intro hlt
        have := ih3 hlt
        omega
      · intro m hm
        cases m with
        | zero =>
          have h0 : observe1 oracle bal i < fee := Nat.lt_of_not_ge hok
          simpa [observedFrom] using h0
        | succ m' =>
          have hm' : m' + 1 <
              (pollLoop oracle fee (observe1 oracle bal i) (i + 1) b).snd := by
            omega
          simpa [observedFrom] using ih4 m' hm'

theorem prepare_transfers (env : PrepEnv) (address : String)
    (assets : List (Nat × AssetPair)) (imgs metas anims : List Nat)
    (ts fee bal : Nat)
    (hts : totalSize env assets imgs metas anims = .ok ts)
    (hp : env.price ts = .ok fee)
    (hb : env.balance = .ok bal)
    (hs : env.setup = .ok ()) :
    (prepare env address assets imgs metas anims).transfers =
      if bal < requiredAmount fee then [requiredAmount fee - bal] else [] := by
  simp only [prepare, hts, hp, hb, hs]
  by_cases hlt : bal < requiredAmount fee
  · simp only [if_pos hlt]
    cases hf : env.fund (requiredAmount fee - bal) with
    | error e => rfl
    | ok u =>
      cases u
      by_cases hc : (pollLoop env.poll (requiredAmount fee) bal 0 MAX_RETRY).fst <
        requiredAmount fee
      · simp [hc]
      · simp [hc]
  · simp only [if_neg hlt]

theorem prepare_poll_branch (env : PrepEnv) (address : String)
    (assets : List (Nat × AssetPair)) (imgs metas anims : List Nat)
    (ts fee bal : Nat)
    (hts : totalSize env assets imgs metas anims = .ok ts)
    (hp : env.price ts = .ok fee)
    (hb : env.balance = .ok bal)
    (hs : env.setup = .ok ())
    (hlt : bal < requiredAmount fee)
    (hf : env.fund (requiredAmount fee - bal) = .ok ()) :
    prepare env address assets imgs metas anims =
      (if (pollLoop env.poll (requiredAmount fee) bal 0 MAX_RETRY).fst <
          requiredAmount fee then
        ⟨.error (.upload (.NoBundlrBalance address)), [requiredAmount fee - bal],
         (pollLoop env.poll (requiredAmount fee) bal 0 MAX_RETRY).snd⟩
       else
        ⟨.ok (), [requiredAmount fee - bal],
         (pollLoop env.poll (requiredAmount fee) bal 0 MAX_RETRY).snd⟩) := by
  simp only [prepare, hts, hp, hb, hs, if_pos hlt, hf]

/-- C5: with a fresh balance at hand, the funding gate is a no-op when the
required amount (fee with multiplier) is already covered; otherwise it issues
exactly one transfer of exactly the shortfall, and never a second one within
the same run. -/
theorem c5_idempotent_topup (env : PrepEnv) (address : String)
    (assets : List (Nat × AssetPair)) (imgs metas anims : List Nat)
    (ts fee bal : Nat)
    (hts : totalSize env assets imgs metas anims = .ok ts)
    (hp : env.price ts = .ok fee)
    (hb : env.balance = .ok bal)
    (hs : env.setup = .ok ()) :
    (requiredAmount fee ≤ bal →
      (prepare env address assets imgs metas anims).transfers = []) ∧
    (bal < requiredAmount fee →
      (prepare env address assets imgs metas anims).transfers =
        [requiredAmount fee - bal]) ∧
    (prepare env address assets imgs metas anims).transfers.length ≤ 1 := by
  have ht := prepare_transfers env address assets imgs metas anims ts fee bal
    hts hp hb hs
  refine ⟨?_, ?_, ?_⟩
  · intro hge
    rw [ht, if_neg (Nat.not_lt.mpr hge)]
  · intro hlt
    rw [ht, if_pos hlt]
  · rw [ht]
    split <;> simp

/-- C6: after a funding transfer, `prepare` polls the balance oracle at most
`MAX_RETRY` (120) times at `DELAY_UNTIL_RETRY` (1000 ms) intervals; a
successful query updates the observed balance and a failed query leaves it
unchanged (`observedFrom`); the loop stops as soon as the observed balance
reaches the required amount (no earlier poll had reached it); and when the
final observed balance is still short, the whole budget was used and
`prepare` fails with the distinct `NoBundlrBalance` error. -/
theorem c6_poll_budget_and_failure (env : PrepEnv) (address : String)
    (assets : List (Nat × AssetPair)) (imgs metas anims : List Nat)
    (ts fee bal : Nat)
    (hts : totalSize env assets imgs metas anims = .ok ts)
    (hp : env.price ts = .ok fee)
    (hb : env.balance = .ok bal)
    (hs : env.setup = .ok ())
    (hlt : bal < requiredAmount fee)
    (hf : env.fund (requiredAmount fee - bal) = .ok ()) :
    (prepare env address assets imgs metas anims).polls ≤ MAX_RETRY ∧
    MAX_RETRY = 120 ∧ DELAY_UNTIL_RETRY = 1000 ∧
    (∀ m, m + 1 < (prepare env address assets imgs metas anims).polls →
      observedFrom env.poll bal 0 (m + 1) < requiredAmount fee) ∧
    (observedFrom env.poll bal 0
        (prepare env address assets imgs metas anims).polls <
        requiredAmount fee →
      (prepare env address assets imgs metas anims).polls = MAX_RETRY ∧
      (prepare env address assets imgs metas anims).result =
        .error (.upload (.NoBundlrBalance address))) ∧
    (requiredAmount fee ≤
        observedFrom env.poll bal 0
          (prepare env address assets imgs metas anims).polls →
      (prepare env address assets imgs metas anims).result = .ok ()) := by
  have hbr := prepare_poll_branch env address assets imgs metas anims ts fee bal
    hts hp hb hs hlt hf
  obtain ⟨h1, h2, h3, h4⟩ :=
    pollLoop_spec env.poll (requiredAmount fee) MAX_RETRY bal 0
  have hpolls : (prepare env address assets imgs metas anims).polls =
      (pollLoop env.poll (requiredAmount fee) bal 0 MAX_RETRY).snd := by
    rw [hbr]
    split <;> rfl
  refine ⟨?_, rfl, rfl, ?_, ?_, ?_⟩
  · rw [hpolls]
    exact h2
  · rw [hpolls]
    exact h4
  · rw [hpolls]
    intro hobs
    rw [← h1] at hobs
    exact ⟨h3 hobs, by rw [hbr, if_pos hobs]⟩
  · rw [hpolls]
    intro hobs
    rw [← h1] at hobs
    rw [hbr, if_neg (Nat.not_lt.mpr hobs)]

theorem sumCosts_ok (cost : Nat → Except AnyErr Nat) (t : Nat → Nat) :
    ∀ (l : List Nat) (a : Nat), (∀ i ∈ l, cost i = .ok (t i)) →
      sumCosts cost a l = .ok (a + (l.map t).sum) := by
  intro l
  induction l with
  | nil =>
    intro a _
    simp [sumCosts]
  | cons i rest ih =>
    intro a h
    have hi : cost i = .ok (t i) := h i (by simp)
    simp only [sumCosts, hi]
    rw [ih (a + t i) fun j hj => h j (by simp [hj])]
    simp [Nat.add_assoc]

theorem imageCost_ok (env : PrepEnv) (assets : List (Nat × AssetPair))
    (i : Nat) (item : AssetPair) (n : Nat)
    (hA : lookupKey assets i = some item)
    (hf : env.fsize item.image = .ok n) :
    imageCost env assets i = .ok (HEADER_SIZE + max MINIMUM_SIZE n) := by
  simp [imageCost, hA, hf]

theorem animationCost_ok (env : PrepEnv) (assets : List (Nat × AssetPair))
    (i : Nat) (item : AssetPair) (fp : FPath) (n : Nat)
    (hA : lookupKey assets i = some item)
    (han : item.animation = some fp)
    (hf : env.fsize fp = .ok n) :
    animationCost env assets i = .ok (HEADER_SIZE + max MINIMUM_SIZE n) := by
  simp [animationCost, hA, han, hf]

theorem metadataCost_ok (env : PrepEnv) (assets : List (Nat × AssetPair))
    (i : Nat) (item : AssetPair) (doc : String)
    (hA : lookupKey assets i = some item)
    (hm : env.getUpdatedMetadata item.metadata mockUri
      (if item.animation.isSome then some mockUri else none) = .ok doc) :
    metadataCost env assets i =
      .ok (HEADER_SIZE + max MINIMUM_SIZE doc.utf8ByteSize) := by
  simp [metadataCost, hA, hm]

/-- C7: when every lookup and every external call succeeds, `total_size` is
exactly the sum over images of `HEADER_SIZE + max MINIMUM_SIZE file_size`,
plus the same term for animations, plus, for each metadata document,
`HEADER_SIZE + max MINIMUM_SIZE` of the byte length of the document rewritten
with the fixed-length mock URI (whose length is `MOCK_URI_SIZE = 100`)
substituted for the image and, when present, animation links; the constants
are `HEADER_SIZE = 2000` and `MINIMUM_SIZE = 10000`. -/
theorem c7_total_size_formula (env : PrepEnv) (assets : List (Nat × AssetPair))
    (imgs metas anims : List Nat) (A : Nat → AssetPair) (sz anSz mdLen : Nat → Nat)
    (hA : ∀ i ∈ imgs ++ metas ++ anims, lookupKey assets i = some (A i))
    (himg : ∀ i ∈ imgs, env.fsize (A i).image = .ok (sz i))
    (hanim : ∀ i ∈ anims, ∃ fp, (A i).animation = some fp ∧
      env.fsize fp = .ok (anSz i))
    (hmeta : ∀ i ∈ metas, ∃ doc,
      env.getUpdatedMetadata (A i).metadata mockUri
        (if (A i).animation.isSome then some mockUri else none) = .ok doc ∧
      doc.utf8ByteSize = mdLen i) :
    totalSize env assets imgs metas anims =
      .ok ((imgs.map fun i => HEADER_SIZE + max MINIMUM_SIZE (sz i)).sum
        + (anims.map fun i => HEADER_SIZE + max MINIMUM_SIZE (anSz i)).sum
        + (metas.map fun i => HEADER_SIZE + max MINIMUM_SIZE (mdLen i)).sum) ∧
    HEADER_SIZE = 2000 ∧ MINIMUM_SIZE = 10000 ∧
    mockUri.length = MOCK_URI_SIZE ∧ MOCK_URI_SIZE = 100 := by
  refine ⟨?_, rfl, rfl, by decide, rfl⟩
  have h1 : sumCosts (imageCost env assets) 0 imgs =
      .ok (0 + (imgs.map fun i => HEADER_SIZE + max MINIMUM_SIZE (sz i)).sum) :=
    sumCosts_ok _ _ imgs 0 fun i hi =>
      imageCost_ok env assets i (A i) (sz i)
        (hA i (by simp [hi])) (himg i hi)
  have h2 : ∀ s, sumCosts (animationCost env assets) s anims =
      .ok (s + (anims.map fun i => HEADER_SIZE + max MINIMUM_SIZE (anSz i)).sum) :=
    fun s => sumCosts_ok _ _ anims s fun i hi => by
      obtain ⟨fp, hfp, hsz⟩ := hanim i hi
      exact animationCost_ok env assets i (A i) fp (anSz i)
        (hA i (by simp [hi])) hfp hsz
  have h3 : ∀ s, sumCosts (metadataCost env assets) s metas =
      .ok (s + (metas.map fun i => HEADER_SIZE + max MINIMUM_SIZE (mdLen i)).sum) :=
    fun s => sumCosts_ok _ _ metas s fun i hi => by
      obtain ⟨doc, hdoc, hlen⟩ := hmeta i hi
      have hh := metadataCost_ok env assets i (A i) doc
        (hA i (by simp [hi])) hdoc
      rw [hlen] at hh
      exact hh
  by_cases hae : anims = []
  · subst hae
    simp only [totalSize, h1, List.isEmpty_nil, if_true, h3, List.map_nil,
      List.sum_nil]
    simp [Nat.add_assoc]
  · have hne : anims.isEmpty = false := by
      cases anims with
      | nil => exact absurd rfl hae
      | cons a l => rfl
    simp only [totalSize, h1, hne, Bool.false_eq_true, if_false, h2, h3]
    simp [Nat.add_assoc]

/-- C8: the amount the funding gate compares against the balance is the
oracle fee multiplied by the fixed safety multiplier; the multiplier is at
least 1 (in the source it is `1.1 as u64`, which truncates to exactly 1), so
the gated amount is never below the oracle-quoted fee. -/
theorem c8_required_amount_bounds_fee (fee : Nat) :
    requiredAmount fee = fee * SAFETY_MULTIPLIER ∧
    1 ≤ SAFETY_MULTIPLIER ∧ fee ≤ requiredAmount fee :=
  ⟨rfl, Nat.le_refl 1, by simp [requiredAmount, SAFETY_MULTIPLIER]⟩

/-- C3: one iteration of the harvesting loop: the loop always continues with
the remaining handles (a failure never aborts it); on success the link built
from the gateway prefix and the returned id is written into the cache item
keyed by the task's asset id — in exactly the field selected by the data
kind — while every other key and the error list are untouched; on a
transport failure or a join failure the cache is untouched and exactly one
`UploadError` is appended. -/
theorem c3_per_task_effects (env : TxInfo → TaskOutcome) (pick : Nat → Nat)
    (intr : Nat → Bool) (P : Nat) (dt : DataType) (fuel n : Nat)
    (st : SchedState) (hintr : intr n = false) (hne : st.handles ≠ []) :
    harvest env pick intr P dt (fuel + 1) n st =
      harvest env pick intr P dt fuel (n + 1) (stepOnce env pick P dt n st) ∧
    (∀ id, env (st.handles.getD (pick n % st.handles.length) default) =
        .success id →
      lookupKey (stepOnce env pick P dt n st).cache
          (st.handles.getD (pick n % st.handles.length) default).asset_id =
        (lookupKey st.cache
            (st.handles.getD (pick n % st.handles.length) default).asset_id).map
          (updateLink dt ("https://arweave.net/" ++ id)) ∧
      (∀ k, k ≠ (st.handles.getD (pick n % st.handles.length) default).asset_id →
        lookupKey (stepOnce env pick P dt n st).cache k = lookupKey st.cache k) ∧
      (stepOnce env pick P dt n st).errors = st.errors) ∧
    (∀ msg, env (st.handles.getD (pick n % st.handles.length) default) =
        .sendFailure msg →
      (stepOnce env pick P dt n st).cache = st.cache ∧
      (stepOnce env pick P dt n st).errors =
        st.errors ++ [.SendDataFailed ("Bundlr upload error: " ++ msg)]) ∧
    (∀ msg, env (st.handles.getD (pick n % st.handles.length) default) =
        .joinFailure msg →
      (stepOnce env pick P dt n st).cache = st.cache ∧
      (stepOnce env pick P dt n st).errors =
        st.errors ++ [.SendDataFailed ("Bundlr upload error: " ++ msg)]) ∧
    (∀ link item, updateLink .image link item = { item with image_link := link } ∧
      updateLink .metadata link item = { item with metadata_link := link } ∧
      updateLink .animation link item = { item with animation_link := some link }) := by
  have hstep := stepOnce_eq env pick P dt n st hne
  refine ⟨harvest_step env pick intr P dt fuel n st hintr hne, ?_, ?_, ?_,
    fun link item => ⟨rfl, rfl, rfl⟩⟩
  · intro id hid
    refine ⟨?_, ?_, ?_⟩
    · rw [hstep, refill_cache]
      unfold applyOutcome
      rw [hid]
      simp [lookupKey_setItem]
    · intro k hk
      rw [hstep, refill_cache]
      unfold applyOutcome
      rw [hid]
      change lookupKey (setItem _ _ st.cache) k = lookupKey st.cache k
      rw [lookupKey_setItem, if_neg hk]
    · rw [hstep, refill_errors]
      unfold applyOutcome
      rw [hid]
  · intro msg hmsg
    constructor
    · rw [hstep, refill_cache]
      unfold applyOutcome
      rw [hmsg]
    · rw [hstep, refill_errors]
      unfold applyOutcome
      rw [hmsg]
  · intro msg hmsg
    constructor
    · rw [hstep, refill_cache]
      unfold applyOutcome
      rw [hmsg]
    · rw [hstep, refill_errors]
      unfold applyOutcome
      rw [hmsg]

/-- C4: the in-flight set never exceeds `PARALLEL_LIMIT` (written `P`): the
initial dispatch takes `min(len, P)` tasks from the front of the queue and
satisfies the bound, one loop iteration preserves the bound, and so does the
whole loop; a refill dispatches only when tasks are pending and the in-flight
set has shrunk below half of `P` (the source condition
`P - handles.len() > P / 2` is equivalent to `2 * handles.len() < P`),
checkpoints the cache exactly then (one `sync_file`), and moves at most
`P / 2` tasks, taken from the front of the pending queue; otherwise the
refill is a no-op. -/
theorem c4_bounded_parallelism (P : Nat) (env : TxInfo → TaskOutcome)
    (pick : Nat → Nat) (intr : Nat → Bool) (dt : DataType)
    (cache0 : List (String × CacheItem)) (txs : List TxInfo)
    (st : SchedState) (n fuel : Nat) (hlen : st.handles.length ≤ P) :
    ((initState cache0 txs P).handles = txs.take (min txs.length P) ∧
     (initState cache0 txs P).pending = txs.drop (min txs.length P) ∧
     (initState cache0 txs P).handles.length ≤ P) ∧
    (stepOnce env pick P dt n st).handles.length ≤ P ∧
    (harvest env pick intr P dt fuel n st).handles.length ≤ P ∧
    (st.pending ≠ [] → 2 * st.handles.length < P →
      refill P st = { st with
        syncs := st.syncs + 1
        disk := st.cache
        handles := st.handles ++ st.pending.take (min st.pending.length (P / 2))
        pending := st.pending.drop (min st.pending.length (P / 2))
        dispatched := st.dispatched + min st.pending.length (P / 2) } ∧
      min st.pending.length (P / 2) ≤ P / 2) ∧
    ((st.pending = [] ∨ P ≤ 2 * st.handles.length) → refill P st = st) := by
  refine ⟨⟨rfl, rfl, ?_⟩, stepOnce_handles_le env pick P dt n st hlen,
    harvest_handles_le env pick intr P dt fuel n st hlen, ?_, ?_⟩
  · show (txs.take (min txs.length P)).length ≤ P
    rw [List.length_take]
    omega
  · intro hpne hhalf
    have h1 : st.pending.isEmpty = false := isEmpty_false_of_ne_nil hpne
    have h2 : P - st.handles.length > P / 2 := by omega
    exact ⟨by simp [refill, h1, h2], Nat.min_le_right _ _⟩
  · rintro (hpe | hge)
    · simp [refill, hpe]
    · have hc : ¬ (P - st.handles.length > P / 2) := by omega
      simp [refill, hc]

theorem finish_spec (st : SchedState) :
    (finish st).errors = st.errors ∧
    (finish st).pendingLeft = st.pending ∧
    (finish st).inFlightLeft = st.handles ∧
    (finish st).cache = st.cache ∧
    ((st.errors ≠ [] ∨ st.pending = []) →
      (finish st).syncedAfterLoop = true ∧
      (finish st).disk = st.cache ∧
      (finish st).syncs = st.syncs + 1 ∧
      (finish st).result = .ok st.errors) ∧
    (st.errors = [] ∧ st.pending ≠ [] →
      (finish st).syncedAfterLoop = false ∧
      (finish st).disk = st.disk ∧
      (finish st).syncs = st.syncs ∧
      (finish st).result =
        .error (.upload (.SendDataFailed "Not all files were uploaded."))) := by
  unfold finish
  split_ifs with h1 h2
  · refine ⟨rfl, rfl, rfl, rfl, fun _ => ⟨rfl, rfl, rfl, rfl⟩, ?_⟩
    rintro ⟨_, hP⟩
    exact absurd (List.isEmpty_iff.mp h2) hP
  · refine ⟨rfl, rfl, rfl, rfl, ?_, fun _ => ⟨rfl, rfl, rfl, rfl⟩⟩
    rintro (h | h)
    · exact absurd (List.isEmpty_iff.mp h1) h
    · exact absurd (by rw [h]; rfl) h2
  · refine ⟨rfl, rfl, rfl, rfl, fun _ => ⟨rfl, rfl, rfl, rfl⟩, ?_⟩
    rintro ⟨hE, _⟩
    exact absurd (by rw [hE]; rfl) h1

theorem upload_data_loop_eq (env : TxInfo → TaskOutcome) (pick : Nat → Nat)
    (intr : Nat → Bool) (P : Nat) (version : String)
    (assets : List (Nat × AssetPair)) (cache0 : List (String × CacheItem))
    (indices : List Nat) (dt : DataType) (exts : List String)
    (paths : List FPath) (txs : List TxInfo)
    (hc : collectPaths assets dt indices = .ok (exts, paths))
    (he : exts.length = 1)
    (hb : buildTxs cache0 dt (mkTags version dt (exts.headD "")) [] paths = .ok txs) :
    upload_data env pick intr P version assets cache0 indices dt =
      finish (harvest env pick intr P dt txs.length 0 (initState cache0 txs P)) := by
  simp only [upload_data, hc]
  rw [if_pos he]
  simp only [hb]

/-- C1 (amended): after the harvesting loop of `upload_data`, the final
`sync_file` runs whenever the error list is non-empty or no transactions
remain pending (the success and partial-failure paths), leaving the on-disk
snapshot equal to the in-memory cache; but on the aborted path — zero task
errors and undispatched transactions remaining — the function returns the
aborted error before the final sync, so the cache is not flushed there and
uploads recorded since the last checkpoint can be lost. -/
theorem c1_final_sync_except_aborted (env : TxInfo → TaskOutcome)
    (pick : Nat → Nat) (intr : Nat → Bool) (P : Nat) (version : String)
    (assets : List (Nat × AssetPair)) (cache0 : List (String × CacheItem))
    (indices : List Nat) (dt : DataType) (exts : List String)
    (paths : List FPath) (txs : List TxInfo)
    (hc : collectPaths assets dt indices = .ok (exts, paths))
    (he : exts.length = 1)
    (hb : buildTxs cache0 dt (mkTags version dt (exts.headD "")) [] paths = .ok txs) :
    (((upload_data env pick intr P version assets cache0 indices dt).errors ≠ [] ∨
      (upload_data env pick intr P version assets cache0 indices dt).pendingLeft = []) →
      (upload_data env pick intr P version assets cache0 indices dt).syncedAfterLoop = true ∧
      (upload_data env pick intr P version assets cache0 indices dt).disk =
        (upload_data env pick intr P version assets cache0 indices dt).cache) ∧
    (((upload_data env pick intr P version assets cache0 indices dt).errors = [] ∧
      (upload_data env pick intr P version assets cache0 indices dt).pendingLeft ≠ []) →
      (upload_data env pick intr P version assets cache0 indices dt).syncedAfterLoop = false ∧
      (upload_data env pick intr P version assets cache0 indices dt).result =
        .error (.upload (.SendDataFailed "Not all files were uploaded."))) := by
  rw [upload_data_loop_eq env pick intr P version assets cache0 indices dt
    exts paths txs hc he hb]
  obtain ⟨e1, e2, e3, e4, h5, h6⟩ :=
    finish_spec (harvest env pick intr P dt txs.length 0 (initState cache0 txs P))
  constructor
  · intro h
    rw [e1, e2] at h
    obtain ⟨hs, hd, _, _⟩ := h5 h
    exact ⟨hs, by rw [hd, e4]⟩
  · intro h
    rw [e1, e2] at h
    obtain ⟨hs, _, _, hr⟩ := h6 h
    exact ⟨hs, hr⟩

/-- C1 counterexample: a concrete run (three tasks, a parallel limit of two,
the first upload harvested successfully, then cancellation observed) exits
through the aborted path: `sync_file` is never invoked — in particular not
after the loop — and the link recorded in the in-memory cache for the
completed upload is absent from the on-disk snapshot, refuting the claim
that every exit path synchronizes the cache after the loop. -/
theorem c1_counterexample_aborted_path_skips_sync :
    (upload_data envOkIds pick0 intrAt1 2 "0.1.1" assets3 cache3 [0, 1, 2] .image).syncs = 0 ∧
    (upload_data envOkIds pick0 intrAt1 2 "0.1.1" assets3 cache3 [0, 1, 2] .image).syncedAfterLoop = false ∧
    (upload_data envOkIds pick0 intrAt1 2 "0.1.1" assets3 cache3 [0, 1, 2] .image).errors = [] ∧
    lookupKey (upload_data envOkIds pick0 intrAt1 2 "0.1.1" assets3 cache3 [0, 1, 2] .image).cache "a0" =
      some ⟨"https://arweave.net/id-a0", "", none⟩ ∧
    lookupKey (upload_data envOkIds pick0 intrAt1 2 "0.1.1" assets3 cache3 [0, 1, 2] .image).disk "a0" =
      some ⟨"", "", none⟩ ∧
    (upload_data envOkIds pick0 intrAt1 2 "0.1.1" assets3 cache3 [0, 1, 2] .image).result =
      .error (.upload (.SendDataFailed "Not all files were uploaded.")) := by
  refine ⟨?_, ?_, ?_, ?_, ?_, ?_⟩ <;> decide

/-- C2 (amended): when the loop ends with zero task-level errors,
`upload_data` returns the combined aborted error exactly when undispatched
transactions remain; when every transaction was dispatched the run is
reported as success with an empty error list — even if cancellation left
tasks in flight, since the exit sequence never inspects the in-flight set
when choosing the result. -/
theorem c2_abort_error_only_for_undispatched (env : TxInfo → TaskOutcome)
    (pick : Nat → Nat) (intr : Nat → Bool) (P : Nat) (version : String)
    (assets : List (Nat × AssetPair)) (cache0 : List (String × CacheItem))
    (indices : List Nat) (dt : DataType) (exts : List String)
    (paths : List FPath) (txs : List TxInfo)
    (hc : collectPaths assets dt indices = .ok (exts, paths))
    (he : exts.length = 1)
    (hb : buildTxs cache0 dt (mkTags version dt (exts.headD "")) [] paths = .ok txs) :
    ((upload_data env pick intr P version assets cache0 indices dt).errors = [] →
      (upload_data env pick intr P version assets cache0 indices dt).pendingLeft ≠ [] →
      (upload_data env pick intr P version assets cache0 indices dt).result =
        .error (.upload (.SendDataFailed "Not all files were uploaded."))) ∧
    ((upload_data env pick intr P version assets cache0 indices dt).errors = [] →
      (upload_data env pick intr P version assets cache0 indices dt).pendingLeft = [] →
      (upload_data env pick intr P version assets cache0 indices dt).result = .ok []) ∧
    (∀ (s : SchedState) (h' : List TxInfo),
      (finish { s with handles := h' }).result = (finish s).result) := by
  rw [upload_data_loop_eq env pick intr P version assets cache0 indices dt
    exts paths txs hc he hb]
  obtain ⟨e1, e2, e3, e4, h5, h6⟩ :=
    finish_spec (harvest env pick intr P dt txs.length 0 (initState cache0 txs P))
  refine ⟨?_, ?_, ?_⟩
  · intro hE hP
    rw [e1] at hE
    rw [e2] at hP
    exact (h6 ⟨hE, hP⟩).2.2.2
  · intro hE hP
    rw [e1] at hE
    rw [e2] at hP
    have hr := (h5 (Or.inr hP)).2.2.2
    rw [hE] at hr
    exact hr
  · intro s h'
    by_cases hE : s.errors.isEmpty = true
    · by_cases hP : s.pending.isEmpty = true
      · simp [finish, hE, hP]
      · simp [finish, hE, hP]
    · simp [finish, hE]

/-- C2 counterexample: a concrete run in which cancellation is observed at
the very first loop check while both dispatched tasks are still in flight
(and none are pending) is reported as success: the result is `Ok` with an
empty error list although no upload completed and no link was recorded,
refuting the claim that an incomplete run is never reported as success. -/
theorem c2_counterexample_inflight_cancel_reports_success :
    (upload_data envOkIds pick0 intrAlways 2 "0.1.1" assets2 cache2 [0, 1] .image).result = .ok [] ∧
    (upload_data envOkIds pick0 intrAlways 2 "0.1.1" assets2 cache2 [0, 1] .image).inFlightLeft.length = 2 ∧
    (upload_data envOkIds pick0 intrAlways 2 "0.1.1" assets2 cache2 [0, 1] .image).pendingLeft = [] ∧
    lookupKey (upload_data envOkIds pick0 intrAlways 2 "0.1.1" assets2 cache2 [0, 1] .image).cache "a0" =
      some ⟨"", "", none⟩ ∧
    lookupKey (upload_data envOkIds pick0 intrAlways 2 "0.1.1" assets2 cache2 [0, 1] .image).cache "a1" =
      some ⟨"", "", none⟩ := by
  refine ⟨?_, ?_, ?_, ?_, ?_⟩ <;> decide

theorem c8_witness :
    requiredAmount 7 = 7 * SAFETY_MULTIPLIER ∧
    1 ≤ SAFETY_MULTIPLIER ∧ 7 ≤ requiredAmount 7 :=
  c8_required_amount_bounds_fee 7

theorem c10_witness :
    (upload_data envOkIds pick0 intrNever 2 "0.1.1" assets2 cache2 [] .image).result =
        .error (.invalidExtension []) ∧
    (upload_data envOkIds pick0 intrNever 2 "0.1.1" assets2 cache2 [] .image).cache = cache2 ∧
    (upload_data envOkIds pick0 intrNever 2 "0.1.1" assets2 cache2 [] .image).disk = cache2 ∧
    (upload_data envOkIds pick0 intrNever 2 "0.1.1" assets2 cache2 [] .image).syncs = 0 ∧
    (upload_data envOkIds pick0 intrNever 2 "0.1.1" assets2 cache2 [] .image).dispatched = 0 :=
  c10_empty_selection_rejected envOkIds pick0 intrNever 2 "0.1.1" assets2 cache2 .image

theorem c9_witness :
    collectPaths assetsHet .image [0, 1] =
      .ok (["png", "jpg"], [⟨"a0", "png"⟩, ⟨"a1", "jpg"⟩]) ∧
    (∃ p ∈ [(⟨"a0", "png"⟩ : FPath), ⟨"a1", "jpg"⟩],
      ∃ q ∈ [(⟨"a0", "png"⟩ : FPath), ⟨"a1", "jpg"⟩], p.ext ≠ q.ext) ∧
    (upload_data envOkIds pick0 intrNever 4 "0.1.1" assetsHet [] [0, 1] .image).result =
        .error (.invalidExtension ["png", "jpg"]) ∧
    (upload_data envOkIds pick0 intrNever 4 "0.1.1" assetsHet [] [0, 1] .image).cache = [] ∧
    (upload_data envOkIds pick0 intrNever 4 "0.1.1" assetsHet [] [0, 1] .image).disk = [] ∧
    (upload_data envOkIds pick0 intrNever 4 "0.1.1" assetsHet [] [0, 1] .image).syncs = 0 ∧
    (upload_data envOkIds pick0 intrNever 4 "0.1.1" assetsHet [] [0, 1] .image).dispatched = 0 := by
  have hc : collectPaths assetsHet .image [0, 1] =
      .ok (["png", "jpg"], [⟨"a0", "png"⟩, ⟨"a1", "jpg"⟩]) := by decide
  have hdiff : ∃ p ∈ [(⟨"a0", "png"⟩ : FPath), ⟨"a1", "jpg"⟩],
      ∃ q ∈ [(⟨"a0", "png"⟩ : FPath), ⟨"a1", "jpg"⟩], p.ext ≠ q.ext := by decide
  exact ⟨hc, hdiff,
    c9_heterogeneous_batch_rejected envOkIds pick0 intrNever 4 "0.1.1" assetsHet
      [] [0, 1] .image ["png", "jpg"] [⟨"a0", "png"⟩, ⟨"a1", "jpg"⟩] hc hdiff⟩

theorem c5_witness :
    totalSize prepEnvW prepAssetsW [0] [0] [] = .ok 34000 ∧
    prepEnvW.price 34000 = .ok 34000 ∧
    prepEnvW.balance = .ok 0 ∧
    prepEnvW.setup = .ok () ∧
    ((requiredAmount 34000 ≤ 0 →
      (prepare prepEnvW "payer" prepAssetsW [0] [0] []).transfers = []) ∧
    (0 < requiredAmount 34000 →
      (prepare prepEnvW "payer" prepAssetsW [0] [0] []).transfers =
        [requiredAmount 34000 - 0]) ∧
    (prepare prepEnvW "payer" prepAssetsW [0] [0] []).transfers.length ≤ 1) := by
  have hts : totalSize prepEnvW prepAssetsW [0] [0] [] = .ok 34000 := by decide
  exact ⟨hts, rfl, rfl, rfl,
    c5_idempotent_topup prepEnvW "payer" prepAssetsW [0] [0] [] 34000 34000 0
      hts rfl rfl rfl⟩

theorem c6_witness :
    totalSize prepEnvW prepAssetsW [0] [0] [] = .ok 34000 ∧
    prepEnvW.price 34000 = .ok 34000 ∧
    prepEnvW.balance = .ok 0 ∧
    prepEnvW.setup = .ok () ∧
    0 < requiredAmount 34000 ∧
    prepEnvW.fund (requiredAmount 34000 - 0) = .ok () ∧
    ((prepare prepEnvW "payer" prepAssetsW [0] [0] []).polls ≤ MAX_RETRY ∧
    MAX_RETRY = 120 ∧ DELAY_UNTIL_RETRY = 1000 ∧
    (∀ m, m + 1 < (prepare prepEnvW "payer" prepAssetsW [0] [0] []).polls →
      observedFrom prepEnvW.poll 0 0 (m + 1) < requiredAmount 34000) ∧
    (observedFrom prepEnvW.poll 0 0
        (prepare prepEnvW "payer" prepAssetsW [0] [0] []).polls <
        requiredAmount 34000 →
      (prepare prepEnvW "payer" prepAssetsW [0] [0] []).polls = MAX_RETRY ∧
      (prepare prepEnvW "payer" prepAssetsW [0] [0] []).result =
        .error (.upload (.NoBundlrBalance "payer"))) ∧
    (requiredAmount 34000 ≤
        observedFrom prepEnvW.poll 0 0
          (prepare prepEnvW "payer" prepAssetsW [0] [0] []).polls →
      (prepare prepEnvW "payer" prepAssetsW [0] [0] []).result = .ok ())) := by
  have hts : totalSize prepEnvW prepAssetsW [0] [0] [] = .ok 34000 := by decide
  have hlt : (0 : Nat) < requiredAmount 34000 := by decide
  exact ⟨hts, rfl, rfl, rfl, hlt, rfl,
    c6_poll_budget_and_failure prepEnvW "payer" prepAssetsW [0] [0] [] 34000 34000 0
      hts rfl rfl rfl hlt rfl⟩

theorem c7_witness :
    (∀ i ∈ ([0] : List Nat) ++ [0] ++ [], lookupKey prepAssetsW i = some prepItemW) ∧
    (∀ i ∈ ([0] : List Nat), prepEnvW.fsize prepItemW.image = .ok 20000) ∧
    (∀ i ∈ ([] : List Nat), ∃ fp, prepItemW.animation = some fp ∧
      prepEnvW.fsize fp = .ok 0) ∧
    (∀ i ∈ ([0] : List Nat), ∃ doc,
      prepEnvW.getUpdatedMetadata prepItemW.metadata mockUri
        (if prepItemW.animation.isSome then some mockUri else none) = .ok doc ∧
      doc.utf8ByteSize = 4) ∧
    (totalSize prepEnvW prepAssetsW [0] [0] [] =
      .ok ((([0] : List Nat).map fun _ => HEADER_SIZE + max MINIMUM_SIZE 20000).sum
        + (([] : List Nat).map fun _ => HEADER_SIZE + max MINIMUM_SIZE 0).sum
        + (([0] : List Nat).map fun _ => HEADER_SIZE + max MINIMUM_SIZE 4).sum) ∧
    HEADER_SIZE = 2000 ∧ MINIMUM_SIZE = 10000 ∧
    mockUri.length = MOCK_URI_SIZE ∧ MOCK_URI_SIZE = 100) := by
  have hA : ∀ i ∈ ([0] : List Nat) ++ [0] ++ [],
      lookupKey prepAssetsW i = some prepItemW := by decide
  have himg : ∀ i ∈ ([0] : List Nat),
      prepEnvW.fsize prepItemW.image = .ok 20000 := by decide
  have hanim : ∀ i ∈ ([] : List Nat), ∃ fp, prepItemW.animation = some fp ∧
      prepEnvW.fsize fp = .ok 0 := by simp
  have hmeta : ∀ i ∈ ([0] : List Nat), ∃ doc,
      prepEnvW.getUpdatedMetadata prepItemW.metadata mockUri
        (if prepItemW.animation.isSome then some mockUri else none) = .ok doc ∧
      doc.utf8ByteSize = 4 := by
    intro i _
    exact ⟨"meta", rfl, by decide⟩
  exact ⟨hA, himg, hanim, hmeta,
    c7_total_size_formula prepEnvW prepAssetsW [0] [0] []
      (fun _ => prepItemW) (fun _ => 20000) (fun _ => 0) (fun _ => 4)
      hA himg hanim hmeta⟩

theorem c1_witness :
    collectPaths assets2 .image [0, 1] =
      .ok (["png"], [⟨"a0", "png"⟩, ⟨"a1", "png"⟩]) ∧
    (["png"] : List String).length = 1 ∧
    buildTxs cache2 .image (mkTags "0.1.1" .image ((["png"] : List String).headD ""))
      [] [⟨"a0", "png"⟩, ⟨"a1", "png"⟩] = .ok [txA0, txA1] ∧
    ((((upload_data envOkIds pick0 intrNever 2 "0.1.1" assets2 cache2 [0, 1] .image).errors ≠ [] ∨
      (upload_data envOkIds pick0 intrNever 2 "0.1.1" assets2 cache2 [0, 1] .image).pendingLeft = []) →
      (upload_data envOkIds pick0 intrNever 2 "0.1.1" assets2 cache2 [0, 1] .image).syncedAfterLoop = true ∧
      (upload_data envOkIds pick0 intrNever 2 "0.1.1" assets2 cache2 [0, 1] .image).disk =
        (upload_data envOkIds pick0 intrNever 2 "0.1.1" assets2 cache2 [0, 1] .image).cache) ∧
    (((upload_data envOkIds pick0 intrNever 2 "0.1.1" assets2 cache2 [0, 1] .image).errors = [] ∧
      (upload_data envOkIds pick0 intrNever 2 "0.1.1" assets2 cache2 [0, 1] .image).pendingLeft ≠ []) →
      (upload_data envOkIds pick0 intrNever 2 "0.1.1" assets2 cache2 [0, 1] .image).syncedAfterLoop = false ∧
      (upload_data envOkIds pick0 intrNever 2 "0.1.1" assets2 cache2 [0, 1] .image).result =
        .error (.upload (.SendDataFailed "Not all files were uploaded.")))) := by
  have hc : collectPaths assets2 .image [0, 1] =
      .ok (["png"], [⟨"a0", "png"⟩, ⟨"a1", "png"⟩]) := by decide
  have he : (["png"] : List String).length = 1 := rfl
  have hb : buildTxs cache2 .image
      (mkTags "0.1.1" .image ((["png"] : List String).headD ""))
      [] [⟨"a0", "png"⟩, ⟨"a1", "png"⟩] = .ok [txA0, txA1] := by decide
  exact ⟨hc, he, hb,
    c1_final_sync_except_aborted envOkIds pick0 intrNever 2 "0.1.1" assets2 cache2
      [0, 1] .image ["png"] [⟨"a0", "png"⟩, ⟨"a1", "png"⟩] [txA0, txA1] hc he hb⟩

theorem c2_witness :
    collectPaths assets2 .image [0, 1] =
      .ok (["png"], [⟨"a0", "png"⟩, ⟨"a1", "png"⟩]) ∧
    (["png"] : List String).length = 1 ∧
    buildTxs cache2 .image (mkTags "0.1.1" .image ((["png"] : List String).headD ""))
      [] [⟨"a0", "png"⟩, ⟨"a1", "png"⟩] = .ok [txA0, txA1] ∧
    (((upload_data envOkIds pick0 intrAlways 2 "0.1.1" assets2 cache2 [0, 1] .image).errors = [] →
      (upload_data envOkIds pick0 intrAlways 2 "0.1.1" assets2 cache2 [0, 1] .image).pendingLeft ≠ [] →
      (upload_data envOkIds pick0 intrAlways 2 "0.1.1" assets2 cache2 [0, 1] .image).result =
        .error (.upload (.SendDataFailed "Not all files were uploaded."))) ∧
    ((upload_data envOkIds pick0 intrAlways 2 "0.1.1" assets2 cache2 [0, 1] .image).errors = [] →
      (upload_data envOkIds pick0 intrAlways 2 "0.1.1" assets2 cache2 [0, 1] .image).pendingLeft = [] →
      (upload_data envOkIds pick0 intrAlways 2 "0.1.1" assets2 cache2 [0, 1] .image).result = .ok []) ∧
    (∀ (s : SchedState) (h' : List TxInfo),
      (finish { s with handles := h' }).result = (finish s).result)) := by
  have hc : collectPaths assets2 .image [0, 1] =
      .ok (["png"], [⟨"a0", "png"⟩, ⟨"a1", "png"⟩]) := by decide
  have he : (["png"] : List String).length = 1 := rfl
  have hb : buildTxs cache2 .image
      (mkTags "0.1.1" .image ((["png"] : List String).headD ""))
      [] [⟨"a0", "png"⟩, ⟨"a1", "png"⟩] = .ok [txA0, txA1] := by decide
  exact ⟨hc, he, hb,
    c2_abort_error_only_for_undispatched envOkIds pick0 intrAlways 2 "0.1.1"
      assets2 cache2 [0, 1] .image ["png"] [⟨"a0", "png"⟩, ⟨"a1", "png"⟩]
      [txA0, txA1] hc he hb⟩

theorem c3_witness :
    intrNever 0 = false ∧ stW.handles ≠ [] ∧
    (harvest envOkIds pick0 intrNever 2 .image (0 + 1) 0 stW =
      harvest envOkIds pick0 intrNever 2 .image 0 (0 + 1)
        (stepOnce envOkIds pick0 2 .image 0 stW) ∧
    (∀ id, envOkIds (stW.handles.getD (pick0 0 % stW.handles.length) default) =
        .success id →
      lookupKey (stepOnce envOkIds pick0 2 .image 0 stW).cache
          (stW.handles.getD (pick0 0 % stW.handles.length) default).asset_id =
        (lookupKey stW.cache
            (stW.handles.getD (pick0 0 % stW.handles.length) default).asset_id).map
          (updateLink .image ("https://arweave.net/" ++ id)) ∧
      (∀ k, k ≠ (stW.handles.getD (pick0 0 % stW.handles.length) default).asset_id →
        lookupKey (stepOnce envOkIds pick0 2 .image 0 stW).cache k =
          lookupKey stW.cache k) ∧
      (stepOnce envOkIds pick0 2 .image 0 stW).errors = stW.errors) ∧
    (∀ msg, envOkIds (stW.handles.getD (pick0 0 % stW.handles.length) default) =
        .sendFailure msg →
      (stepOnce envOkIds pick0 2 .image 0 stW).cache = stW.cache ∧
      (stepOnce envOkIds pick0 2 .image 0 stW).errors =
        stW.errors ++ [.SendDataFailed ("Bundlr upload error: " ++ msg)]) ∧
    (∀ msg, envOkIds (stW.handles.getD (pick0 0 % stW.handles.length) default) =
        .joinFailure msg →
      (stepOnce envOkIds pick0 2 .image 0 stW).cache = stW.cache ∧
      (stepOnce envOkIds pick0 2 .image 0 stW).errors =
        stW.errors ++ [.SendDataFailed ("Bundlr upload error: " ++ msg)]) ∧
    (∀ link item, updateLink .image link item = { item with image_link := link } ∧
      updateLink .metadata link item = { item with metadata_link := link } ∧
      updateLink .animation link item = { item with animation_link := some link })) := by
  have h1 : intrNever 0 = false := rfl
  have h2 : stW.handles ≠ [] := by decide
  exact ⟨h1, h2, c3_per_task_effects envOkIds pick0 intrNever 2 .image 0 0 stW h1 h2⟩

theorem c4_witness :
    stW.handles.length ≤ 4 ∧
    (((initState cache2 [txA0, txA1] 4).handles =
        [txA0, txA1].take (min ([txA0, txA1] : List TxInfo).length 4) ∧
      (initState cache2 [txA0, txA1] 4).pending =
        [txA0, txA1].drop (min ([txA0, txA1] : List TxInfo).length 4) ∧
      (initState cache2 [txA0, txA1] 4).handles.length ≤ 4) ∧
    (stepOnce envOkIds pick0 4 .image 0 stW).handles.length ≤ 4 ∧
    (harvest envOkIds pick0 intrNever 4 .image 1 0 stW).handles.length ≤ 4 ∧
    (stW.pending ≠ [] → 2 * stW.handles.length < 4 →
      refill 4 stW = { stW with
        syncs := stW.syncs + 1
        disk := stW.cache
        handles := stW.handles ++ stW.pending.take (min stW.pending.length (4 / 2))
        pending := stW.pending.drop (min stW.pending.length (4 / 2))
        dispatched := stW.dispatched + min stW.pending.length (4 / 2) } ∧
      min stW.pending.length (4 / 2) ≤ 4 / 2) ∧
    ((stW.pending = [] ∨ 4 ≤ 2 * stW.handles.length) → refill 4 stW = stW)) := by
  have hlen : stW.handles.length ≤ 4 := by decide
  exact ⟨hlen, c4_bounded_parallelism 4 envOkIds pick0 intrNever .image cache2
    [txA0, txA1] stW 0 1 hlen⟩

end Sugar
